import Mathlib

/-!
Shallow embedding of `investment_logic.py` (class `InvestmentAdvisor`) of the
investment-advisor repository, together with proofs of the specified
properties.  Numeric values are modelled with `Rat`; Python dictionaries of
literal data become Lean structures and lists; the external market-data
collaborator becomes a function parameter; a Python function that can raise
returns `Except`, and a function that can fall through without a `return`
(yielding Python `None`) returns `Option`.
-/

/-- One row of the `risk_profiles` table: target fractions for the three
top-level asset classes. -/
structure RiskAllocation where
  stocks : Rat
  bonds : Rat
  cash : Rat
deriving DecidableEq

/-- The `self.risk_profiles` dictionary: lookup by risk-tolerance tag.
A missing key is `none` (Python would raise `KeyError` at the access site). -/
def risk_profiles (tier : String) : Option RiskAllocation :=
  if tier = "conservative" then some ⟨2/10, 6/10, 2/10⟩
  else if tier = "moderate" then some ⟨5/10, 4/10, 1/10⟩
  else if tier = "aggressive" then some ⟨8/10, 15/100, 5/100⟩
  else none

/-- An entry of `self.indian_stocks`: a listed equity. -/
structure StockEntry where
  symbol : String
  name : String
deriving DecidableEq

/-- `self.indian_stocks["large_cap"]`, in declared order. -/
def large_cap : List StockEntry :=
  [⟨"RELIANCE.NS", "Reliance Industries"⟩,
   ⟨"TCS.NS", "Tata Consultancy Services"⟩,
   ⟨"HDFCBANK.NS", "HDFC Bank"⟩,
   ⟨"INFY.NS", "Infosys"⟩,
   ⟨"ICICIBANK.NS", "ICICI Bank"⟩]

/-- `self.indian_stocks["mid_cap"]`, in declared order. -/
def mid_cap : List StockEntry :=
  [⟨"GODREJPROP.NS", "Godrej Properties"⟩,
   ⟨"TATAELXSI.NS", "Tata Elxsi"⟩,
   ⟨"MPHASIS.NS", "Mphasis"⟩]

/-- An entry of `self.mutual_funds`: a pooled fund with its declared risk band. -/
structure MFEntry where
  code : String
  name : String
  risk : String
deriving DecidableEq

/-- `self.mutual_funds["equity"]`. -/
def mutual_funds_equity : List MFEntry :=
  [⟨"INF179K01BE2", "Axis Bluechip Fund Direct Growth", "moderate"⟩,
   ⟨"INF090I01LD9", "ICICI Prudential Bluechip Fund Direct Plan Growth", "moderate"⟩,
   ⟨"INF209K01BR9", "Mirae Asset Large Cap Fund Direct Plan Growth", "moderate"⟩]

/-- `self.mutual_funds["debt"]`. -/
def mutual_funds_debt : List MFEntry :=
  [⟨"INF209K01NS1", "Mirae Asset Short Term Fund Direct Growth", "conservative"⟩,
   ⟨"INF090I01XG8", "ICICI Prudential Corporate Bond Fund Direct Plan Growth", "conservative"⟩]

/-- `self.mutual_funds["hybrid"]`. -/
def mutual_funds_hybrid : List MFEntry :=
  [⟨"INF846K01940", "DSP Equity & Bond Fund Direct Plan Growth", "moderate"⟩,
   ⟨"INF179K01CH2", "Axis Triple Advantage Fund Direct Growth", "aggressive"⟩]

/-- An entry of `self.bonds`: a fixed-income instrument. -/
structure BondEntry where
  name : String
  yield_pct : Rat
  maturity : Nat
deriving DecidableEq

/-- `self.bonds["govt"]`. -/
def bonds_govt : List BondEntry :=
  [⟨"7.37% GS 2028", 737/100, 2028⟩,
   ⟨"7.26% GS 2029", 726/100, 2029⟩,
   ⟨"6.79% GS 2027", 679/100, 2027⟩]

/-- `self.bonds["corporate"]`. -/
def bonds_corporate : List BondEntry :=
  [⟨"HDFC 7.95% 2025", 795/100, 2025⟩,
   ⟨"LIC Housing 7.85% 2026", 785/100, 2026⟩]

/-- `get_usd_inr_rate`: the fetched closing rate when the external fetch
succeeds, and the documented fallback value `83.0` otherwise. -/
def get_usd_inr_rate (fetched : Option Rat) : Rat :=
  fetched.getD 83

/-- State of one `InvestmentAdvisor` instance that is not a literal constant:
the once-per-lifetime FX rate stored by `__init__`.  The catalogs and the
risk-profile table are literal constants of `__init__` and are modelled as the
top-level definitions above. -/
structure Advisor where
  usd_to_inr_rate : Rat
deriving DecidableEq

/-- The `annual_return_rates` dictionary of `calculate_investment_returns`,
in Python insertion order. -/
def annual_return_rates : List (String × Rat) :=
  [("stocks", 10/100), ("bonds", 5/100), ("cash", 2/100)]

/-- The `fixed` branch of `calculate_investment_returns`: starting from
`amount`, for each asset class add `amount * rate * time_period`. -/
def fixed_total (amount : Rat) (time_period : Nat) : Rat :=
  annual_return_rates.foldl
    (fun total p => total + (amount * p.2) * (time_period : Rat)) amount

/-- The inner monthly-returns loop: for each asset class, compute one month of
return on the current running total and add it; each later asset class sees the
total already updated by the earlier ones. -/
def apply_monthly_rates (total : Rat) : Rat :=
  annual_return_rates.foldl (fun t p => t + t * (p.2 / 12)) total

/-- One year of the monthly-contribution loop: twelve times, add the monthly
contribution and then apply the monthly returns. -/
def year_of_months (monthly : Rat) (total : Rat) : Rat :=
  (fun t => apply_monthly_rates (t + monthly))^[12] total

/-- One iteration of the outer `for year in range(time_period)` loop of the
`floating` branch: run twelve months, then grow the monthly contribution by
`(1 + monthly_increment)`.  State is `(total_amount, current_monthly)`. -/
def floating_year (monthly_increment : Rat) (s : Rat × Rat) : Rat × Rat :=
  (year_of_months s.2 s.1, s.2 * (1 + monthly_increment))

/-- The `floating` branch of `calculate_investment_returns`. -/
def floating_total (amount monthly_increment : Rat) (time_period : Nat) : Rat :=
  ((floating_year monthly_increment)^[time_period] (amount, amount / 12)).1

/-- The `fixed-float` branch: the same monthly loop with a constant monthly
contribution of `amount / 12`. -/
def fixedfloat_total (amount : Rat) (time_period : Nat) : Rat :=
  (year_of_months (amount / 12))^[time_period] amount

/-- `calculate_investment_returns`.  The Python function has no `else` branch:
an unrecognized `investment_type` falls through and returns `None`, modelled
as `Option.none`. -/
def calculate_investment_returns (amount : Rat) (time_period : Nat)
    (investment_type : String) (monthly_increment : Rat) : Option Rat :=
  if investment_type = "fixed" then
    some (fixed_total amount time_period)
  else if investment_type = "floating" then
    some (floating_total amount monthly_increment time_period)
  else if investment_type = "fixed-float" then
    some (fixedfloat_total amount time_period)
  else
    none

/-- A market snapshot for one instrument, as built by
`get_indian_market_data`. -/
structure Quote where
  price : Rat
  volume : Rat
deriving DecidableEq

/-- Observable side steps of `get_investment_advice`, in program order:
the Return Projector call, the three catalog selections, and the external
market-data request. -/
inductive Event where
  | projectorCall
  | stockCatalog
  | marketFetch
  | mfCatalog
  | bondCatalog
deriving DecidableEq

/-- A Python runtime error surfaced by the advisor core.  The only error the
source can raise on its own is a dictionary `KeyError`. -/
inductive PyError where
  | keyError (key : String)
deriving DecidableEq

/-- Equity symbols selected by `get_investment_advice` for a risk tier; the
final branch of the source is a bare `else` commented `# aggressive`. -/
def stock_symbols_for (risk_tolerance : String) : List String :=
  if risk_tolerance = "conservative" then
    (large_cap.take 2).map StockEntry.symbol
  else if risk_tolerance = "moderate" then
    (large_cap.take 3).map StockEntry.symbol ++ (mid_cap.take 1).map StockEntry.symbol
  else
    (large_cap.take 3).map StockEntry.symbol ++ (mid_cap.take 2).map StockEntry.symbol

/-- Mutual funds selected by `get_investment_advice` for a risk tier. -/
def mf_recommendations_for (risk_tolerance : String) : List MFEntry :=
  if risk_tolerance = "conservative" then
    mutual_funds_debt.take 2 ++ mutual_funds_hybrid.take 1
  else if risk_tolerance = "moderate" then
    mutual_funds_equity.take 2 ++ mutual_funds_debt.take 1 ++ mutual_funds_hybrid.take 1
  else
    mutual_funds_equity.take 3 ++ mutual_funds_hybrid.take 1

/-- Bonds selected by `get_investment_advice` for a risk tier. -/
def bond_recommendations_for (risk_tolerance : String) : List BondEntry :=
  if risk_tolerance = "conservative" then
    bonds_govt.take 2 ++ bonds_corporate.take 1
  else if risk_tolerance = "moderate" then
    bonds_govt.take 1 ++ bonds_corporate.take 1
  else
    bonds_corporate.take 1

/-- One entry of the stocks recommendation list in the output dictionary. -/
structure StockRec where
  name : String
  symbol : String
  current_price : Rat
deriving DecidableEq

/-- The `stocks` slot of `asset_allocation`. -/
structure StocksClass where
  percentage : Rat
  amount : Rat
  recommendations : List StockRec
deriving DecidableEq

/-- The `mutual_funds` slot of `asset_allocation`. -/
structure MFClass where
  percentage : Rat
  amount : Rat
  recommendations : List MFEntry
deriving DecidableEq

/-- The `bonds` slot of `asset_allocation`. -/
structure BondsClass where
  percentage : Rat
  amount : Rat
  recommendations : List BondEntry
deriving DecidableEq

/-- The `cash` slot of `asset_allocation`: a fixed textual recommendation,
no instrument list. -/
structure CashClass where
  percentage : Rat
  amount : Rat
  recommendation : String
deriving DecidableEq

/-- The `asset_allocation` dictionary of the output. -/
structure AssetAllocation where
  stocks : StocksClass
  mutual_funds : MFClass
  bonds : BondsClass
  cash : CashClass
deriving DecidableEq

/-- The `recommendations` dictionary returned by `get_investment_advice`.
`total_expected_value` is an `Option` because `calculate_investment_returns`
returns Python `None` for an unrecognized investment type, and that value is
stored here unchecked. -/
structure Recommendation where
  total_expected_value : Option Rat
  asset_allocation : AssetAllocation
  investment_type : String
  time_period : Nat
  risk_profile : String
deriving DecidableEq

/-- The Python expression
`next(stock["name"] for stock in large_cap + mid_cap if stock["symbol"] == symbol)`.
All call sites pass a symbol drawn from the catalog, so the `none` case of
`find?` (Python `StopIteration`) is unreachable and the default is arbitrary. -/
def lookup_stock_name (symbol : String) : String :=
  (((large_cap ++ mid_cap).find? (fun s => s.symbol = symbol)).map StockEntry.name).getD ""

/-- `get_investment_advice`.  The external Market Data Source is the
parameter `market` (a symbol either has a quote or is absent, as in the
mapping built by `get_indian_market_data`).  The result pairs the list of
side steps performed, in order, with either the output dictionary or the
raised error.  An unknown `risk_tolerance` raises `KeyError` at the
`self.risk_profiles[risk_tolerance]` access, after the projector call but
before any catalog selection. -/
def get_investment_advice (adv : Advisor) (market : String → Option Quote)
    (amount : Rat) (time_period : Nat) (investment_type : String)
    (risk_tolerance : String) (monthly_increment : Rat) :
    List Event × Except PyError Recommendation :=
  let expected_return :=
    calculate_investment_returns amount time_period investment_type monthly_increment
  match risk_profiles risk_tolerance with
  | none => ([Event.projectorCall], Except.error (PyError.keyError risk_tolerance))
  | some allocation =>
    let stock_symbols := stock_symbols_for risk_tolerance
    let stock_data : String → Option Quote :=
      fun s => if s ∈ stock_symbols then market s else none
    let mf_recommendations := mf_recommendations_for risk_tolerance
    let bond_recommendations := bond_recommendations_for risk_tolerance
    ([Event.projectorCall, Event.stockCatalog, Event.marketFetch,
      Event.mfCatalog, Event.bondCatalog],
     Except.ok
      { total_expected_value := expected_return
        asset_allocation :=
          { stocks :=
              { percentage := allocation.stocks
                amount := amount * allocation.stocks
                recommendations := stock_symbols.map (fun symbol =>
                  { name := lookup_stock_name symbol
                    symbol := symbol
                    current_price :=
                      match stock_data symbol with
                      | some q => q.price
                      | none => 0 }) }
            mutual_funds :=
              { percentage := allocation.bonds * (6/10)
                amount := amount * allocation.bonds * (6/10)
                recommendations := mf_recommendations }
            bonds :=
              { percentage := allocation.bonds * (4/10)
                amount := amount * allocation.bonds * (4/10)
                recommendations := bond_recommendations }
            cash :=
              { percentage := allocation.cash
                amount := amount * allocation.cash
                recommendation := "High-yield savings account or liquid funds" } }
        investment_type := investment_type
        time_period := time_period
        risk_profile := risk_tolerance })

/-- The data interpolated into the narrative sections produced by
`explain_investment_strategy`.  Each section of the source is a constant
template string with these values spliced in; the constant text carries no
state and is omitted from the model. -/
structure StrategyExplanation where
  overview_profile : String
  stocks_percentage : Rat
  stocks_amount : Rat
  mutual_funds_percentage : Rat
  mutual_funds_amount : Rat
  bonds_percentage : Rat
  bonds_amount : Rat
  cash_percentage : Rat
  cash_amount : Rat
deriving DecidableEq

/-- `explain_investment_strategy`: pure composition from the already-computed
percentages and amounts of the advice dictionary; `self` is never read. -/
def explain_investment_strategy (adv : Advisor) (advice : Recommendation)
    (risk_tolerance : String) : StrategyExplanation :=
  { overview_profile := risk_tolerance.capitalize
    stocks_percentage := advice.asset_allocation.stocks.percentage * 100
    stocks_amount := advice.asset_allocation.stocks.amount
    mutual_funds_percentage := advice.asset_allocation.mutual_funds.percentage * 100
    mutual_funds_amount := advice.asset_allocation.mutual_funds.amount
    bonds_percentage := advice.asset_allocation.bonds.percentage * 100
    bonds_amount := advice.asset_allocation.bonds.amount
    cash_percentage := advice.asset_allocation.cash.percentage * 100
    cash_amount := advice.asset_allocation.cash.amount }

/-- The stocks recommendation list of a successful advice call (empty on a
raised error). -/
def advice_stock_recs (adv : Advisor) (market : String → Option Quote)
    (amount : Rat) (time_period : Nat) (investment_type : String)
    (risk_tolerance : String) (monthly_increment : Rat) : List StockRec :=
  match (get_investment_advice adv market amount time_period investment_type
      risk_tolerance monthly_increment).2 with
  | Except.ok rec => rec.asset_allocation.stocks.recommendations
  | Except.error _ => []

/-- The selected equity symbols of a successful advice call. -/
def advice_stock_symbols (adv : Advisor) (market : String → Option Quote)
    (amount : Rat) (time_period : Nat) (investment_type : String)
    (risk_tolerance : String) (monthly_increment : Rat) : List String :=
  (advice_stock_recs adv market amount time_period investment_type
    risk_tolerance monthly_increment).map StockRec.symbol

/-- The sum of the four asset-class percentages of a successful advice call. -/
def advice_pct_sum (adv : Advisor) (market : String → Option Quote)
    (amount : Rat) (time_period : Nat) (investment_type : String)
    (risk_tolerance : String) (monthly_increment : Rat) : Option Rat :=
  match (get_investment_advice adv market amount time_period investment_type
      risk_tolerance monthly_increment).2 with
  | Except.ok rec =>
      some (rec.asset_allocation.stocks.percentage
        + rec.asset_allocation.mutual_funds.percentage
        + rec.asset_allocation.bonds.percentage
        + rec.asset_allocation.cash.percentage)
  | Except.error _ => none

/-- The asset allocation of a successful advice call. -/
def advice_allocation (adv : Advisor) (market : String → Option Quote)
    (amount : Rat) (time_period : Nat) (investment_type : String)
    (risk_tolerance : String) (monthly_increment : Rat) : Option AssetAllocation :=
  match (get_investment_advice adv market amount time_period investment_type
      risk_tolerance monthly_increment).2 with
  | Except.ok rec => some rec.asset_allocation
  | Except.error _ => none

/-- C2 counterexample: for the unrecognized model tag "speculative" the
projector raises no error at all; it falls through and returns Python `None`,
i.e. an absent value. -/
theorem calc_unknown_model_cex :
    calculate_investment_returns 100000 1 "speculative" 0 = none := rfl

/-- C2 (amended): for every model tag outside the three recognized values,
`calculate_investment_returns` silently returns `None` (no value); no error
of any kind is raised. -/
theorem calc_unknown_model_returns_none (amount : Rat) (years : Nat)
    (inc : Rat) (model : String) (h1 : model ≠ "fixed")
    (h2 : model ≠ "floating") (h3 : model ≠ "fixed-float") :
    calculate_investment_returns amount years model inc = none := by
  simp [calculate_investment_returns, h1, h2, h3]

/-- Witness for `calc_unknown_model_returns_none` at the tag "lump". -/
theorem calc_unknown_model_returns_none_wit :
    calculate_investment_returns 100000 1 "lump" 0 = none :=
  calc_unknown_model_returns_none 100000 1 0 "lump"
    (by decide) (by decide) (by decide)

/-- C3: under the "fixed" model the returned value is the principal plus the
principal times each of the annual rates 0.10, 0.05, 0.02 times the number of
years (simple growth on the original principal); in particular
100000 over 1 year yields exactly 117000. -/
theorem fixed_model_simple_growth :
    (∀ (amount inc : Rat) (years : Nat),
      calculate_investment_returns amount years "fixed" inc
        = some (amount + amount * (10/100) * years + amount * (5/100) * years
            + amount * (2/100) * years))
    ∧ calculate_investment_returns 100000 1 "fixed" 0 = some 117000 := by
  constructor
  · intro amount inc years
    simp only [calculate_investment_returns, fixed_total, annual_return_rates,
      List.foldl, if_pos]
  · norm_num [calculate_investment_returns, fixed_total, annual_return_rates]

/-- C7: the "fixed-float" model never reads `monthly_increment`: any two
increment values give the same projected total. -/
theorem fixedfloat_increment_irrelevant :
    ∀ (amount : Rat) (years : Nat) (i1 i2 : Rat),
      calculate_investment_returns amount years "fixed-float" i1
        = calculate_investment_returns amount years "fixed-float" i2 :=
  fun _ _ _ _ => rfl

/-- C1 counterexample: calling the advisor with the unknown tier
"speculative" does fail, but with a plain `KeyError`, and the Return
Projector has already been called before the failure, contradicting the
claim that no projector call happens first. -/
theorem advice_speculative_cex :
    (get_investment_advice ⟨83⟩ (fun _ => none) 100000 5 "fixed"
        "speculative" 0).2 = Except.error (PyError.keyError "speculative")
    ∧ Event.projectorCall ∈ (get_investment_advice ⟨83⟩ (fun _ => none)
        100000 5 "fixed" "speculative" 0).1 := by
  constructor
  · rfl
  · simp [get_investment_advice, risk_profiles]

/-- C1 (amended): for every risk tier outside the three known tags, the call
fails with a `KeyError` raised at the risk-profile table lookup; the Return
Projector is called once before that failure, and no catalog selection or
market fetch happens. -/
theorem advice_unknown_tier_keyerror (adv : Advisor)
    (market : String → Option Quote) (amount : Rat) (time_period : Nat)
    (investment_type : String) (inc : Rat) (tier : String)
    (h1 : tier ≠ "conservative") (h2 : tier ≠ "moderate")
    (h3 : tier ≠ "aggressive") :
    get_investment_advice adv market amount time_period investment_type tier inc
      = ([Event.projectorCall], Except.error (PyError.keyError tier)) := by
  have hrp : risk_profiles tier = none := by simp [risk_profiles, h1, h2, h3]
  simp [get_investment_advice, hrp]

/-- Witness for `advice_unknown_tier_keyerror` at the tier "speculative". -/
theorem advice_unknown_tier_keyerror_wit :
    get_investment_advice ⟨83⟩ (fun _ => none) 100000 5 "fixed" "speculative" 0
      = ([Event.projectorCall], Except.error (PyError.keyError "speculative")) :=
  advice_unknown_tier_keyerror ⟨83⟩ (fun _ => none) 100000 5 "fixed" 0
    "speculative" (by decide) (by decide) (by decide)

/-- C4: for each of the three valid risk tiers and all other inputs, the four
percentages of the produced recommendation (stocks, mutual funds = 0.6 of the
bonds bucket, direct bonds = 0.4 of the bonds bucket, cash) sum to exactly 1. -/
theorem advice_percentages_sum_to_one (adv : Advisor)
    (market : String → Option Quote) (amount : Rat) (time_period : Nat)
    (investment_type : String) (inc : Rat) :
    advice_pct_sum adv market amount time_period investment_type "conservative" inc
        = some 1
    ∧ advice_pct_sum adv market amount time_period investment_type "moderate" inc
        = some 1
    ∧ advice_pct_sum adv market amount time_period investment_type "aggressive" inc
        = some 1 := by
  refine ⟨?_, ?_, ?_⟩ <;>
    · simp [advice_pct_sum, get_investment_advice, risk_profiles]
      norm_num

/-- C5: the advice for amount 100000, 5 years, "fixed" model, "moderate"
tier, zero increment allocates stocks 0.5 of 100000 = 50000, mutual funds
0.24 = 24000, direct bonds 0.16 = 16000, and cash 0.1 = 10000, for every
market-data state and FX rate. -/
theorem advice_example_moderate (adv : Advisor)
    (market : String → Option Quote) :
    (advice_allocation adv market 100000 5 "fixed" "moderate" 0).map
        (fun a => (a.stocks.percentage, a.stocks.amount,
          a.mutual_funds.percentage, a.mutual_funds.amount,
          a.bonds.percentage, a.bonds.amount,
          a.cash.percentage, a.cash.amount))
      = some (1/2, 50000, 24/100, 24000, 16/100, 16000, 1/10, 10000) := by
  simp [advice_allocation, get_investment_advice, risk_profiles]
  norm_num

/-- C6: the selected equity symbols are a fixed take-prefix of each band of
the catalog in declared order, depending only on the risk tier: the first 2
large-cap entries for "conservative" (length 2), the first 3 large-cap plus
the first mid-cap entry for "moderate" (length 4), and the first 3 large-cap
plus the first 2 mid-cap entries for "aggressive" (length 5). -/
theorem advice_equity_selection (adv : Advisor)
    (market : String → Option Quote) (amount : Rat) (time_period : Nat)
    (investment_type : String) (inc : Rat) :
    advice_stock_symbols adv market amount time_period investment_type
        "conservative" inc = (large_cap.take 2).map StockEntry.symbol
    ∧ (advice_stock_symbols adv market amount time_period investment_type
        "conservative" inc).length = 2
    ∧ advice_stock_symbols adv market amount time_period investment_type
        "moderate" inc
        = (large_cap.take 3).map StockEntry.symbol
          ++ (mid_cap.take 1).map StockEntry.symbol
    ∧ (advice_stock_symbols adv market amount time_period investment_type
        "moderate" inc).length = 4
    ∧ advice_stock_symbols adv market amount time_period investment_type
        "aggressive" inc
        = (large_cap.take 3).map StockEntry.symbol
          ++ (mid_cap.take 2).map StockEntry.symbol
    ∧ (advice_stock_symbols adv market amount time_period investment_type
        "aggressive" inc).length = 5 := by
  refine ⟨?_, ?_, ?_, ?_, ?_, ?_⟩ <;>
    simp [advice_stock_symbols, advice_stock_recs, get_investment_advice,
      risk_profiles, stock_symbols_for, large_cap, mid_cap]

/-- C10: the once-per-lifetime FX rate is never read after construction: two
advisor states differing only in `usd_to_inr_rate` produce identical advice
and identical strategy explanations on every input. -/
theorem fx_rate_not_read (r1 r2 : Rat) (market : String → Option Quote)
    (amount : Rat) (time_period : Nat) (investment_type tier : String)
    (inc : Rat) (advice : Recommendation) (tier2 : String) :
    get_investment_advice ⟨r1⟩ market amount time_period investment_type tier inc
        = get_investment_advice ⟨r2⟩ market amount time_period investment_type tier inc
    ∧ explain_investment_strategy ⟨r1⟩ advice tier2
        = explain_investment_strategy ⟨r2⟩ advice tier2 :=
  ⟨rfl, rfl⟩

/-- The monthly-returns loop multiplies the running total by the constant
factor `(1 + 1/120) * (1 + 1/240) * (1 + 1/600)`. -/
theorem apply_monthly_rates_eq (t : Rat) :
    apply_monthly_rates t = (17525761/17280000) * t := by
  simp only [apply_monthly_rates, annual_return_rates, List.foldl]
  ring

/-- One month of the contribution loop keeps the total positive. -/
theorem month_step_pos (t m : Rat) (ht : 0 < t) (hm : 0 < m) :
    0 < apply_monthly_rates (t + m) := by
  rw [apply_monthly_rates_eq]
  nlinarith

/-- One month of the contribution loop strictly increases the total. -/
theorem month_step_gt (t m : Rat) (ht : 0 < t) (hm : 0 < m) :
    t < apply_monthly_rates (t + m) := by
  rw [apply_monthly_rates_eq]
  nlinarith

/-- Any number of months keeps the total positive and never decreases it. -/
theorem month_iter_pos_le (m : Rat) (hm : 0 < m) :
    ∀ (n : Nat) (t : Rat), 0 < t →
      0 < (fun u => apply_monthly_rates (u + m))^[n] t
      ∧ t ≤ (fun u => apply_monthly_rates (u + m))^[n] t := by
  intro n
  induction n with
  | zero =>
    intro t ht
    rw [Function.iterate_zero_apply]
    exact ⟨ht, le_refl t⟩
  | succ k ih =>
    intro t ht
    obtain ⟨hpos, hle⟩ := ih t ht
    rw [Function.iterate_succ_apply']
    exact ⟨month_step_pos _ m hpos hm,
      le_of_lt (lt_of_le_of_lt hle (month_step_gt _ m hpos hm))⟩

/-- A full year of twelve months keeps the total positive and strictly
increases it. -/
theorem year_of_months_gt (m t : Rat) (hm : 0 < m) (ht : 0 < t) :
    t < year_of_months m t ∧ 0 < year_of_months m t := by
  obtain ⟨hpos, hle⟩ := month_iter_pos_le m hm 11 t ht
  have h12 : year_of_months m t
      = apply_monthly_rates ((fun u => apply_monthly_rates (u + m))^[11] t + m) := by
    rw [year_of_months, Function.iterate_succ_apply']
  constructor
  · rw [h12]
    exact lt_of_le_of_lt hle (month_step_gt _ m hpos hm)
  · rw [h12]
    exact month_step_pos _ m hpos hm

/-- Invariant of the floating-model outer loop: total and monthly
contribution stay positive. -/
theorem floating_state_pos (amount inc : Rat) (ha : 0 < amount)
    (hi : 0 ≤ inc) :
    ∀ y : Nat, 0 < ((floating_year inc)^[y] (amount, amount / 12)).1
      ∧ 0 < ((floating_year inc)^[y] (amount, amount / 12)).2 := by
  intro y
  induction y with
  | zero =>
    rw [Function.iterate_zero_apply]
    exact ⟨ha, by positivity⟩
  | succ k ih =>
    obtain ⟨h1, h2⟩ := ih
    rw [Function.iterate_succ_apply']
    refine ⟨(year_of_months_gt _ _ h2 h1).2, ?_⟩
    have : (0:Rat) < 1 + inc := by linarith
    exact mul_pos h2 this

/-- The floating-model total strictly increases with each extra year. -/
theorem floating_total_lt_succ (amount inc : Rat) (ha : 0 < amount)
    (hi : 0 ≤ inc) (y : Nat) :
    floating_total amount inc y < floating_total amount inc (y + 1) := by
  obtain ⟨h1, h2⟩ := floating_state_pos amount inc ha hi y
  rw [floating_total, floating_total, Function.iterate_succ_apply']
  exact (year_of_months_gt _ _ h2 h1).1

/-- The fixed-float total stays positive. -/
theorem fixedfloat_total_pos (amount : Rat) (ha : 0 < amount) :
    ∀ y : Nat, 0 < fixedfloat_total amount y := by
  intro y
  induction y with
  | zero => simpa [fixedfloat_total] using ha
  | succ k ih =>
    rw [fixedfloat_total, Function.iterate_succ_apply']
    exact (year_of_months_gt _ _ (by positivity) ih).2

/-- The fixed-float total strictly increases with each extra year. -/
theorem fixedfloat_total_lt_succ (amount : Rat) (ha : 0 < amount) (y : Nat) :
    fixedfloat_total amount y < fixedfloat_total amount (y + 1) := by
  have hp := fixedfloat_total_pos amount ha y
  rw [fixedfloat_total, fixedfloat_total, Function.iterate_succ_apply']
  exact (year_of_months_gt _ _ (by positivity) hp).1

/-- The fixed-model total is the principal plus 17 percent of it per year. -/
theorem fixed_total_eq (amount : Rat) (y : Nat) :
    fixed_total amount y = amount + amount * (17/100) * y := by
  simp only [fixed_total, annual_return_rates, List.foldl]
  ring

/-- C8: for every positive amount, non-negative increment, and each of the
three recognized models, the projected value is strictly increasing in the
number of years. -/
theorem calc_returns_strict_mono_in_years (amount inc : Rat) (y1 y2 : Nat)
    (model : String)
    (hm : model = "fixed" ∨ model = "floating" ∨ model = "fixed-float")
    (ha : 0 < amount) (hi : 0 ≤ inc) (hy : y1 < y2) (r1 r2 : Rat)
    (h1 : calculate_investment_returns amount y1 model inc = some r1)
    (h2 : calculate_investment_returns amount y2 model inc = some r2) :
    r1 < r2 := by
  rcases hm with rfl | rfl | rfl
  · simp only [calculate_investment_returns, if_pos, Option.some.injEq] at h1 h2
    subst h1; subst h2
    rw [fixed_total_eq, fixed_total_eq]
    have hc : (y1 : Rat) < (y2 : Rat) := by exact_mod_cast hy
    nlinarith
  · simp [calculate_investment_returns] at h1 h2
    subst h1; subst h2
    have : StrictMono (fun y => floating_total amount inc y) :=
      strictMono_nat_of_lt_succ (floating_total_lt_succ amount inc ha hi)
    exact this hy
  · simp [calculate_investment_returns] at h1 h2
    subst h1; subst h2
    have : StrictMono (fun y => fixedfloat_total amount y) :=
      strictMono_nat_of_lt_succ (fixedfloat_total_lt_succ amount ha)
    exact this hy

/-- Witness for `calc_returns_strict_mono_in_years`: with the fixed model,
100 invested over 0 years gives 100 and over 2 years gives 134. -/
theorem calc_returns_strict_mono_wit : (100 : Rat) < 134 :=
  calc_returns_strict_mono_in_years 100 0 0 2 "fixed" (Or.inl rfl)
    (by norm_num) (by norm_num) (by norm_num) 100 134
    (by norm_num [calculate_investment_returns, fixed_total, annual_return_rates])
    (by norm_num [calculate_investment_returns, fixed_total, annual_return_rates])

/-- C9: in a successful advice call, every selected symbol whose quote is
absent from the market-data result gets `current_price = 0`, every symbol
with a quote keeps its fetched price, and the only possible failure of the
whole request is the unknown-risk-tier `KeyError`; a missing quote never
fails the request. -/
theorem advice_quote_fallback (adv : Advisor) (market : String → Option Quote)
    (amount : Rat) (time_period : Nat) (investment_type : String)
    (tier : String) (inc : Rat) :
    (∀ r ∈ advice_stock_recs adv market amount time_period investment_type
        tier inc,
      r.current_price = ((market r.symbol).map Quote.price).getD 0)
    ∧ (∀ e, (get_investment_advice adv market amount time_period
        investment_type tier inc).2 = Except.error e
        → e = PyError.keyError tier) := by
  constructor
  · intro r hr
    rw [advice_stock_recs] at hr
    cases hrp : risk_profiles tier with
    | none =>
      simp [get_investment_advice, hrp] at hr
    | some alloc =>
      simp only [get_investment_advice, hrp] at hr
      simp only [List.mem_map] at hr
      obtain ⟨s, hs, rfl⟩ := hr
      simp only [hs, if_pos]
      cases market s with
      | none => rfl
      | some q => rfl
  · intro e he
    cases hrp : risk_profiles tier with
    | none =>
      simp only [get_investment_advice, hrp, Except.error.injEq] at he
      exact he.symm
    | some alloc =>
      simp [get_investment_advice, hrp] at he

/-- A concrete market-data state for the witness below: only the TCS symbol
has a quote. -/
def market_w : String → Option Quote :=
  fun s => if s = "TCS.NS" then some ⟨4000, 7⟩ else none

/-- Witness for `advice_quote_fallback`: under `market_w` the TCS entry of
the moderate advice keeps its fetched price. -/
theorem advice_quote_fallback_wit :
    ({ name := "Tata Consultancy Services", symbol := "TCS.NS",
       current_price := 4000 } : StockRec).current_price
      = ((market_w "TCS.NS").map Quote.price).getD 0 :=
  (advice_quote_fallback ⟨83⟩ market_w 100000 5 "fixed" "moderate" 0).1
    ⟨"Tata Consultancy Services", "TCS.NS", 4000⟩
    (by simp [advice_stock_recs, get_investment_advice, risk_profiles,
      stock_symbols_for, large_cap, mid_cap, lookup_stock_name, market_w])
